import Mathlib

/-!
Verification of the redgifs HTTP transport core (`redgifs/http.py`).

The Python source is shallowly embedded: pure fragments become Lean
functions, raising code returns `Except PyErr`, and the effectful
`download` pipeline is modelled as a function from an explicit network
oracle (`World`) to a trace of the requests, fetches and file events it
performs.  Machine-level details (UTF-8 bytes for percent-encoding) use
`Nat` values below 256.
-/

/-! ## Generic string helpers (Python `in`, `str.strip`, dict lookup) -/

/-- Bool test that `pre` is an initial segment of `l` (used to model the
Python substring operator). -/
def startsWithChars : List Char → List Char → Bool
  | [], _ => true
  | _ :: _, [] => false
  | a :: as, b :: bs => a == b && startsWithChars as bs

/-- Bool test that `needle` occurs contiguously inside `hay`; the model of
the Python expression `needle in hay` on strings. -/
def hasSub (needle : List Char) : List Char → Bool
  | [] => startsWithChars needle []
  | c :: rest => startsWithChars needle (c :: rest) || hasSub needle rest

/-- String wrapper for `hasSub`. -/
def hasSubStr (needle hay : String) : Bool :=
  hasSub needle.toList hay.toList

/-- First-match association lookup; the model of a Python dict access
(dict keys are unique, so first match is the match). -/
def lookupStr {α : Type} : List (String × α) → String → Option α
  | [], _ => none
  | (k, v) :: rest, key => if k == key then some v else lookupStr rest key

/-- Python `s.strip(chars)`: remove from both ends every character that is a
member of the character SET `chars` (not the substring `chars`).  This
set semantics is what `redgifs/http.py` line 190 actually invokes. -/
def pyStrip (s : String) (chars : String) : String :=
  let cs := chars.toList
  let t := s.toList.dropWhile (fun c => cs.contains c)
  String.mk ((t.reverse.dropWhile (fun c => cs.contains c)).reverse)

/-! ## Python scalar values and their canonical text (`str`, `format`) -/

/-- The parameter values `Route.__init__` receives in this code base:
strings, ints and bools (`**parameters: Any`, used at those three types). -/
inductive PyVal
  | str (s : String)
  | int (n : Int)
  | bool (b : Bool)
deriving DecidableEq

/-- Little-endian decimal digits of `n`, with fuel for structural
recursion; `fuel = n + 1` always suffices since `n / 10 < n` for `n ≥ 10`. -/
def natDigitsRevF : Nat → Nat → List Nat
  | 0, _ => []
  | fuel + 1, n => if n < 10 then [n] else n % 10 :: natDigitsRevF fuel (n / 10)

/-- Decimal digit characters of a natural number, most significant first. -/
def pyNatChars (n : Nat) : List Char :=
  ((natDigitsRevF (n + 1) n).reverse).map (fun d => Char.ofNat (48 + d))

/-- Python `str(n)` for an int: optional minus sign then decimal digits. -/
def pyIntStr (n : Int) : String :=
  if n < 0 then "-" ++ String.mk (pyNatChars n.natAbs)
  else String.mk (pyNatChars n.natAbs)

/-- Python `str(b)` for a bool. -/
def pyBoolStr (b : Bool) : String :=
  if b then "True" else "False"

/-! ## `urllib.parse.quote` (default `safe='/'`) -/

/-- Characters `urllib.parse.quote` never escapes regardless of `safe`:
ASCII letters, digits, and `_ . - ~`. -/
def isAlwaysSafe (c : Char) : Bool :=
  ('A' ≤ c && c ≤ 'Z') || ('a' ≤ c && c ≤ 'z') || ('0' ≤ c && c ≤ '9') ||
  c == '_' || c == '.' || c == '-' || c == '~'

/-- Uppercase hexadecimal digit character for `n < 16`. -/
def hexUpper (n : Nat) : Char :=
  if n < 10 then Char.ofNat (48 + n) else Char.ofNat (55 + n)

/-- Percent-escape of one byte value: `%XX` with uppercase hex. -/
def percentByte (b : Nat) : List Char :=
  ['%', hexUpper (b / 16), hexUpper (b % 16)]

/-- Encoding of a single character by `quote(..., safe='/')`: kept as-is
when in the safe set, otherwise every UTF-8 byte is percent-escaped. -/
def quoteChar (c : Char) : List Char :=
  if isAlwaysSafe c || c == '/' then [c]
  else ((String.utf8EncodeChar c).map (fun b => percentByte b.toNat)).flatten

/-- `urllib.parse.quote(s)` with the default safe set `'/'`. -/
def percentEncode (s : String) : String :=
  String.mk ((s.toList.map quoteChar).flatten)

/-- The combined effect, on one parameter value, of the dict comprehension
in `Route.__init__` line 54 (`quote(v) if isinstance(v, str) else v`)
followed by the textual conversion `str.format_map` applies to non-string
values. -/
def convertParam : PyVal → String
  | PyVal.str s => percentEncode s
  | PyVal.int n => pyIntStr n
  | PyVal.bool b => pyBoolStr b

/-! ## JSON-like structured bodies and Python exceptions -/

/-- Parsed structured response body (the value `r.json()` returns). -/
inductive JVal
  | null
  | bool (b : Bool)
  | num (n : Int)
  | str (s : String)
  | arr (xs : List JVal)
  | obj (fields : List (String × JVal))

/-- Transient response envelope: status code plus parsed body. -/
structure PyResponse where
  status : Nat
  body : JVal

/-- The exceptions the embedded code can raise.  `httpException` carries
the raw response and the parsed body, as `HTTPException(r, js)` does. -/
inductive PyErr
  | httpException (resp : PyResponse) (body : JVal)
  | typeError (msg : String)
  | runtimeError (msg : String)
  | keyError
  | valueError

/-- Subscription `j[k]` on a parsed body: KeyError on a missing key,
TypeError when the value is not a mapping. -/
def JVal.getItem : JVal → String → Except PyErr JVal
  | JVal.obj fields, k =>
    match lookupStr fields k with
    | some v => Except.ok v
    | none => Except.error PyErr.keyError
  | _, _ => Except.error (PyErr.typeError "object is not subscriptable")

/-- Chained subscription `j[k1][k2]...`. -/
def JVal.dig : JVal → List String → Except PyErr JVal
  | j, [] => Except.ok j
  | j, k :: ks =>
    match j.getItem k with
    | Except.ok v => JVal.dig v ks
    | Except.error e => Except.error e

/-! ## `str.format_map` and `Route` -/

/-- One scanning pass of `str.format_map` over the template characters.
The first argument is the replacement mapping; the `Option` state is
`none` outside a replacement field and `some acc` while reading a field
name whose characters so far are `acc`.  Doubled braces denote literal
braces; a lone closing brace, an unterminated field, or a nested opening
brace inside a field name raise ValueError; a missing key raises
KeyError; the substituted text of a found value is `convertParam`.
(CPython additionally splits field names at `. [ ! :` for attribute,
index, conversion and format-spec syntax; no template in this code base
uses those, and the theorems below restrict field names accordingly.) -/
def formatScanM (m : List (String × PyVal)) : Option (List Char) → List Char → Except PyErr (List Char)
  | none, [] => Except.ok []
  | some _, [] => Except.error PyErr.valueError
  | none, c :: rest =>
    if c = '{' then
      match rest with
      | [] => Except.error PyErr.valueError
      | d :: rest2 =>
        if d = '{' then (formatScanM m none rest2).map (fun t => '{' :: t)
        else formatScanM m (some []) (d :: rest2)
    else if c = '}' then
      match rest with
      | [] => Except.error PyErr.valueError
      | d :: rest2 =>
        if d = '}' then (formatScanM m none rest2).map (fun t => '}' :: t)
        else Except.error PyErr.valueError
    else
      (formatScanM m none rest).map (fun t => c :: t)
  | some acc, c :: rest =>
    if c = '}' then
      match lookupStr m (String.mk acc) with
      | none => Except.error PyErr.keyError
      | some v => (formatScanM m none rest).map (fun t => (convertParam v).toList ++ t)
    else if c = '{' then Except.error PyErr.valueError
    else formatScanM m (some (acc ++ [c])) rest

/-- `template.format_map(mapping)` on whole strings. -/
def formatMap (m : List (String × PyVal)) (template : String) : Except PyErr String :=
  (formatScanM m none template.toList).map String.mk

/-- A resolved route: method, path template, and final URL
(`redgifs/http.py` lines 46-55). -/
structure Route where
  method : String
  path : String
  url : String

/-- The fixed compiled-in origin `Route.BASE`. -/
def Route.BASE : String := "https://api.redgifs.com"

/-- `Route.__init__`: concatenate the origin and the path template, then,
when the parameter mapping is non-empty, interpolate it with
`str.format_map` after percent-encoding the string-valued parameters. -/
def Route.make (method path : String) (parameters : List (String × PyVal)) : Except PyErr Route :=
  let url := Route.BASE ++ path
  if parameters.isEmpty then
    Except.ok { method := method, path := path, url := url }
  else
    (formatMap parameters url).map (fun u => { method := method, path := path, url := u })

/-! ## Transport construction (`HTTP.__init__`, `AsyncHttp.__init__`) -/

/-- Username and password pair (`ProxyAuth` NamedTuple). -/
structure ProxyAuth where
  username : String
  password : String

/-- Runtime type of a session object handed to a transport constructor. -/
inductive PySessionTy
  | requestsSession
  | aiohttpClientSession
  | otherTy
deriving DecidableEq

/-- Modelled from the spec: the User-Agent value interpolates the package
version (from `redgifs/__init__.py`) and the Python runtime version, both
of which live outside the provided sources; the spec fixes only the shape
"library name, repo url, version, runtime version", and no claim depends
on the exact text. -/
def userAgent : String :=
  "redgifs (https://github.com/scrazzz/redgifs 0) Python/3.1"

/-- Python truthiness of an optional string (`if proxy:`): present and
non-empty. -/
def truthyOptStr : Option String → Bool
  | none => false
  | some s => !s.isEmpty

/-- Scheme of a URL string: the text before `://`, or empty when absent
(the model of `yarl.URL(...).scheme`). -/
def splitColonSlashSlash : List Char → Option (List Char × List Char)
  | [] => none
  | c :: rest =>
    if startsWithChars [':', '/', '/'] (c :: rest) then some ([], rest.drop 2)
    else
      match splitColonSlashSlash rest with
      | none => none
      | some (a, b) => some (c :: a, b)

/-- Scheme of a URL string. -/
def schemeOf (u : String) : String :=
  match splitColonSlashSlash u.toList with
  | some (sch, _) => String.mk sch
  | none => ""

/-- Host of a URL string, `none` for relative URLs
(the model of `yarl.URL(...).host`). -/
def urlHost (url : String) : Option String :=
  match splitColonSlashSlash url.toList with
  | none => none
  | some (_, rest) => some (String.mk (rest.takeWhile (fun c => c != '/')))

/-- The Python expression `str(yarl_url.host)`: the host, or the text
`"None"` when the URL has none. -/
def hostStrOf (url : String) : String :=
  match urlHost url with
  | some h => h
  | none => "None"

/-- Path of a URL string (the model of `yarl.URL(...).path`): everything
from the first slash after the authority, `/` when that is empty, and the
whole string for relative URLs. -/
def pathStrOf (url : String) : String :=
  match splitColonSlashSlash url.toList with
  | none => url
  | some (_, rest) =>
    let p := rest.dropWhile (fun c => c != '/')
    if p.isEmpty then "/" else String.mk p

/-- State an `HTTP` transport holds after construction. -/
structure HTTPState where
  sessionTy : PySessionTy
  sessionCreated : Bool
  headers : List (String × String)
  proxy : Option String
  proxy_auth : Option ProxyAuth
  _proxy : Option (String × String)
  _proxy_auth : Option (String × String)

/-- The field assignments of `HTTP.__init__` lines 79-97 once the session
check has passed: headers, `self.proxy`, and the derived `_proxy` mapping
`{scheme: str(url)}` and `_proxy_auth` pair, the latter only when both a
proxy URL and credentials were supplied. -/
def HTTP.initState (ty : PySessionTy) (created : Bool) (proxy : Option String)
    (pa : Option ProxyAuth) : HTTPState :=
  let proxyURL : Option String := if truthyOptStr proxy then proxy else none
  let proxyMap : Option (String × String) := proxyURL.map (fun u => (schemeOf u, u))
  { sessionTy := ty
    sessionCreated := created
    headers := [("User-Agent", userAgent)]
    proxy := proxyURL
    proxy_auth := pa
    _proxy := proxyMap
    _proxy_auth :=
      match pa, proxyMap with
      | some a, some _ => some (a.username, a.password)
      | _, _ => none }

/-- `HTTP.__init__`: reject a supplied session that is not a
`requests.Session` with RuntimeError before anything else happens (the
constructor touches no network); otherwise keep the supplied session or
create and own a fresh one (`session or requests.Session()`). -/
def HTTP.init (session : Option PySessionTy) (proxy : Option String)
    (pa : Option ProxyAuth) : Except PyErr HTTPState :=
  if session.isSome && session != some PySessionTy.requestsSession then
    Except.error (PyErr.runtimeError "session is not of type requests.Session")
  else
    Except.ok (HTTP.initState (session.getD PySessionTy.requestsSession) session.isNone proxy pa)

/-- State an `AsyncHttp` transport holds after construction (its
`__init__` keeps `self.proxy` and builds `_proxy_auth` as an
`aiohttp.BasicAuth`, again only when both pieces were supplied). -/
structure AsyncState where
  sessionTy : PySessionTy
  sessionCreated : Bool
  headers : List (String × String)
  proxy : Option String
  proxy_auth : Option ProxyAuth
  _proxy_auth : Option (String × String)

/-- The field assignments of `AsyncHttp.__init__` lines 210-221. -/
def AsyncHttp.initState (ty : PySessionTy) (created : Bool) (proxy : Option String)
    (pa : Option ProxyAuth) : AsyncState :=
  let proxyURL : Option String := if truthyOptStr proxy then proxy else none
  { sessionTy := ty
    sessionCreated := created
    headers := [("User-Agent", userAgent)]
    proxy := proxyURL
    proxy_auth := pa
    _proxy_auth :=
      match pa, proxyURL with
      | some a, some _ => some (a.username, a.password)
      | _, _ => none }

/-- `AsyncHttp.__init__`: same shape as the sync constructor but expecting
an `aiohttp.ClientSession`. -/
def AsyncHttp.init (session : Option PySessionTy) (proxy : Option String)
    (pa : Option ProxyAuth) : Except PyErr AsyncState :=
  if session.isSome && session != some PySessionTy.aiohttpClientSession then
    Except.error (PyErr.runtimeError "session is not of type aiohttp.ClientSession")
  else
    Except.ok (AsyncHttp.initState (session.getD PySessionTy.aiohttpClientSession) session.isNone proxy pa)

/-! ## The request pipeline -/

/-- Everything `HTTP.request` passes to `session.request`. -/
structure SyncRequestRecord where
  method : String
  url : String
  headers : List (String × String)
  proxies : Option (String × String)
  auth : Option (String × String)
  timeout : Nat

/-- `HTTP.request` lines 99-111: issue the request (the outcome is the
supplied `resp`, standing for what the network returned), parse the body,
return it on status 200, raise `HTTPException(r, js)` otherwise.  The
first component records the arguments handed to `session.request`. -/
def HTTP.request (st : HTTPState) (r : Route) (resp : PyResponse) :
    SyncRequestRecord × Except PyErr JVal :=
  ({ method := r.method, url := r.url, headers := st.headers,
     proxies := st._proxy, auth := st._proxy_auth, timeout := 60 },
   if resp.status = 200 then Except.ok resp.body
   else Except.error (PyErr.httpException resp resp.body))

/-- Everything `AsyncHttp.request` passes to `session.request`. -/
structure AsyncRequestRecord where
  method : String
  url : String
  headers : List (String × String)
  proxy : Option String
  proxy_auth : Option (String × String)

/-- `AsyncHttp.request` lines 223-235: identical status gating; the proxy
is passed as `str(self.proxy)` when set, and `proxy_auth` as stored. -/
def AsyncHttp.request (st : AsyncState) (r : Route) (resp : PyResponse) :
    AsyncRequestRecord × Except PyErr JVal :=
  ({ method := r.method, url := r.url, headers := st.headers,
     proxy := st.proxy, proxy_auth := st._proxy_auth },
   if resp.status = 200 then Except.ok resp.body
   else Except.error (PyErr.httpException resp resp.body))

/-! ## The download resolver -/

/-- Destination of a download: a filesystem path or a caller-supplied open
binary sink (`io.BufferedIOBase`). -/
inductive DownloadTarget
  | path (p : String)
  | sink (id : Nat)
deriving DecidableEq

/-- Observable file-system events of the inner `dl` helper. -/
inductive FileEvent
  | openTrunc (p : String)
  | writeFile (p : String) (data : List Nat)
  | closeFile (p : String)
  | writeSink (id : Nat) (data : List Nat)
deriving DecidableEq

/-- Result of the inner `dl` helper: the file events and the returned
write count. -/
structure DlResult where
  events : List FileEvent
  ret : Int
deriving DecidableEq

/-- The inner `dl` closure of `download` (lines 170-179): for a sink,
write into it without closing; for a path, open it in truncating binary
write mode, write, and close (the `with open(fp, 'wb')` block).  `write`
returns the byte count. -/
def dl (fp : DownloadTarget) (data : List Nat) : DlResult :=
  match fp with
  | DownloadTarget.sink i => { events := [FileEvent.writeSink i data], ret := (data.length : Int) }
  | DownloadTarget.path p =>
    { events := [FileEvent.openTrunc p, FileEvent.writeFile p data, FileEvent.closeFile p],
      ret := (data.length : Int) }

/-- Network oracle: the structured response each (method, url) request
would receive, and the raw bytes a plain GET of a URL would return. -/
structure World where
  apiResponse : String → String → PyResponse
  rawBytes : String → List Nat

/-- Modelled from the spec: the asset-path grammar `REDGIFS_THUMBS_RE`
lives in `redgifs/const.py`, outside the provided sources.  The spec
fixes only that it is "a fixed asset-path regular expression", so the
download resolver is parameterized by a predicate on the URL string,
`re.match` succeeding exactly when it returns `true`. -/
def ThumbsPattern : Type := String → Bool

/-- Trace of one `download` call: the structured requests issued through
the request pipeline, the raw GET fetches, the file events, and the
returned integer. -/
structure DLOut where
  apiCalls : List (String × String)
  rawFetches : List String
  events : List FileEvent
  ret : Int

/-- `HTTP.get_gif` lines 121-123: resolve `GET /v2/gifs/` with the id
interpolated, send it through `request`, and hand back the parsed body.
The second component reports the (method, url) actually issued, for the
download trace. -/
def HTTP.get_gif (w : World) (st : HTTPState) (id : String) :
    Except PyErr (JVal × (String × String)) :=
  match Route.make "GET" "/v2/gifs/{id}" [("id", PyVal.str id)] with
  | Except.error e => Except.error e
  | Except.ok r =>
    match (HTTP.request st r (w.apiResponse r.method r.url)).2 with
    | Except.ok js => Except.ok (js, (r.method, r.url))
    | Except.error e => Except.error e

/-- `HTTP.download` lines 164-195.  Classify the URL: a host containing
both `thumbs` and `redgifs` takes the direct branch, gated by the asset
pattern, else TypeError; a path containing `watch` strips the character
set `/watch/` from both ends of the path to get the id, looks the gif up
through `get_gif`, digs out `gif / urls / hd` and fetches it; anything
else returns the sentinel 1 having done nothing. -/
def HTTP.download (w : World) (thumbsRe : ThumbsPattern) (st : HTTPState)
    (url : String) (fp : DownloadTarget) : Except PyErr DLOut :=
  let host := hostStrOf url
  let strUrl := url
  if hasSubStr "thumbs" host && hasSubStr "redgifs" host then
    if thumbsRe strUrl then
      let res := dl fp (w.rawBytes strUrl)
      Except.ok { apiCalls := [], rawFetches := [strUrl], events := res.events, ret := res.ret }
    else
      Except.error (PyErr.typeError ("\"" ++ strUrl ++ "\" is an invalid RedGifs URL."))
  else if hasSubStr "watch" (pathStrOf url) then
    let id := pyStrip (pathStrOf url) "/watch/"
    match HTTP.get_gif w st id with
    | Except.error e => Except.error e
    | Except.ok (js, call) =>
      match JVal.dig js ["gif", "urls", "hd"] with
      | Except.error e => Except.error e
      | Except.ok (JVal.str hd) =>
        let res := dl fp (w.rawBytes hd)
        Except.ok { apiCalls := [call], rawFetches := [hd], events := res.events, ret := res.ret }
      | Except.ok _ => Except.error (PyErr.typeError "url must be str")
  else
    Except.ok { apiCalls := [], rawFetches := [], events := [], ret := 1 }

/-- `AsyncHttp.download` lines 237-266.  The direct and fallthrough
branches mirror the sync resolver.  The watch branch, however, calls the
inherited `HTTP.get_gif`, inside which `self.request` now resolves to the
async override: the call returns an un-awaited coroutine object, and
subscripting it with `['gif']` raises TypeError before any request is
sent, so the branch is embedded as that immediate error. -/
def AsyncHttp.download (w : World) (thumbsRe : ThumbsPattern) (st : AsyncState)
    (url : String) (fp : DownloadTarget) : Except PyErr DLOut :=
  let host := hostStrOf url
  let strUrl := url
  if hasSubStr "thumbs" host && hasSubStr "redgifs" host then
    if thumbsRe strUrl then
      let res := dl fp (w.rawBytes strUrl)
      Except.ok { apiCalls := [], rawFetches := [strUrl], events := res.events, ret := res.ret }
    else
      Except.error (PyErr.typeError ("\"" ++ strUrl ++ "\" is an invalid RedGifs URL."))
  else if hasSubStr "watch" (pathStrOf url) then
    Except.error (PyErr.typeError "coroutine object is not subscriptable")
  else
    Except.ok { apiCalls := [], rawFetches := [], events := [], ret := 1 }

/-! ## Template decomposition, used to state the resolution claims

A path template whose placeholders are exactly covered by the parameter
mapping is formalized as a list of pieces: literal brace-free text and
named placeholders whose rendered template text is the name between an
opening and a closing brace. -/

/-- One piece of a path template. -/
inductive TPiece
  | lit (s : String)
  | hole (n : String)
deriving DecidableEq

/-- The template text of a piece. -/
def TPiece.textChars : TPiece → List Char
  | TPiece.lit s => s.toList
  | TPiece.hole n => '{' :: (n.toList ++ ['}'])

/-- The template text of a piece list. -/
def textCharsOf : List TPiece → List Char
  | [] => []
  | p :: ps => p.textChars ++ textCharsOf ps

/-- The substituted text of a piece under a parameter mapping. -/
def TPiece.filledChars (m : List (String × PyVal)) : TPiece → List Char
  | TPiece.lit s => s.toList
  | TPiece.hole n =>
    match lookupStr m n with
    | some v => (convertParam v).toList
    | none => []

/-- The substituted text of a piece list. -/
def filledCharsOf (m : List (String × PyVal)) : List TPiece → List Char
  | [] => []
  | p :: ps => p.filledChars m ++ filledCharsOf m ps

/-- A character that is neither brace. -/
def noBraceChar (c : Char) : Bool := c != '{' && c != '}'

/-- Characters excluded from placeholder names: braces, plus the
characters at which CPython field-name parsing switches to attribute,
index, conversion or format-spec syntax. -/
def badNameChars : List Char := ['{', '}', ':', '!', '.', '[', ']']

/-- Well-formedness of a piece with respect to a parameter mapping:
literal pieces are brace-free; placeholder names are nonempty, avoid the
special characters, and are bound in the mapping. -/
def TPiece.ok (m : List (String × PyVal)) : TPiece → Bool
  | TPiece.lit s => s.toList.all noBraceChar
  | TPiece.hole n =>
    (!n.isEmpty) && n.toList.all (fun c => !badNameChars.contains c) && (lookupStr m n).isSome

/-- Every piece is well formed. -/
def piecesOk (m : List (String × PyVal)) (ps : List TPiece) : Bool :=
  ps.all (TPiece.ok m)

/-- Every key of the mapping occurs as a placeholder: together with
`piecesOk` this states that the keys exactly cover the placeholders. -/
def coversAll (m : List (String × PyVal)) (ps : List TPiece) : Bool :=
  m.all (fun kv => ps.contains (TPiece.hole kv.1))

/-! ## Character classes for the encoding claims -/

/-- Decimal digit or uppercase hexadecimal letter. -/
def isUpperHex (c : Char) : Bool := ('0' ≤ c && c ≤ '9') || ('A' ≤ c && c ≤ 'F')

/-- Every character `quote` can emit: a safe character, the slash kept by
the default safe set, a percent sign, or an uppercase hex digit. -/
def outOK (c : Char) : Bool := isAlwaysSafe c || c == '/' || c == '%' || isUpperHex c

/-- The RFC 3986 reserved characters (gen-delims and sub-delims); the
one written with `Char.ofNat 39` is the single quote. -/
def rfc3986Reserved : List Char :=
  [':', '/', '?', '#', '[', ']', '@', '!', '$', '&', Char.ofNat 39, '(', ')', '*', '+', ',', ';', '=']

/-- The reserved characters other than the slash. -/
def reservedNoSlash : List Char := rfc3986Reserved.filter (fun c => c != '/')

/-! ## Concrete fixtures for the witnesses and evaluations -/

/-- A structured body of the shape the gif lookup returns. -/
def demoBody : JVal :=
  JVal.obj [("gif", JVal.obj [("urls",
    JVal.obj [("hd", JVal.str "https://thumbs44.redgifs.com/Demo-mobile.mp4")])])]

/-- A network oracle answering every structured request with status 200
and `demoBody`, and every raw fetch with three bytes. -/
def demoWorld : World :=
  { apiResponse := fun _ _ => { status := 200, body := demoBody }
    rawBytes := fun _ => [104, 105, 33] }

/-- A sync transport state built without proxy configuration. -/
def demoState : HTTPState := HTTP.initState PySessionTy.requestsSession true none none

/-- An async transport state built without proxy configuration. -/
def demoAsyncState : AsyncState := AsyncHttp.initState PySessionTy.aiohttpClientSession true none none

/-- A concrete resolved route. -/
def demoRoute : Route :=
  { method := "GET", path := "/v1/tags", url := "https://api.redgifs.com/v1/tags" }

/-- A concrete instance of the asset-path grammar, matching the
scenario-2 URL. -/
def demoPattern : ThumbsPattern := fun s => hasSubStr "-mobile.mp4" s

/-- Split a character list at slashes into path segments. -/
def splitSlashes : List Char → List (List Char)
  | [] => [[]]
  | c :: rest =>
    if c = '/' then [] :: splitSlashes rest
    else
      match splitSlashes rest with
      | [] => [[c]]
      | s :: ss => (c :: s) :: ss

/-- The spec wording of the watch-page grammar (sections 4.3 and 6): the
URL path contains `watch` as a literal path SEGMENT.  Stated from the
spec to delimit the domain of the unrecognized-URL claim; the code
instead tests `watch` as a substring of the path, a strictly broader
condition. -/
def hasWatchSegment (url : String) : Bool :=
  (splitSlashes (pathStrOf url).toList).contains "watch".toList

/-! ## Helper lemmas -/

theorem strAppend_mk (s : String) (l : List Char) : s ++ String.mk l = String.mk (s.data ++ l) := by
  cases s
  rfl

theorem mk_toList (s : String) : String.mk s.toList = s := by
  cases s
  rfl

theorem toList_mk (l : List Char) : (String.mk l).toList = l := rfl

theorem outOK_noBrace {c : Char} (h : outOK c = true) : c ≠ '{' ∧ c ≠ '}' := by
  constructor <;> rintro rfl <;> exact absurd h (by decide)

theorem outOK_not_reserved {c : Char} (h : outOK c = true) (hm : c ∈ reservedNoSlash) : False := by
  fin_cases hm <;> exact absurd h (by decide)

theorem outOK_hexUpper {n : Nat} (h : n < 16) : outOK (hexUpper n) = true := by
  interval_cases n <;> decide

theorem percentByte_chars {b : Nat} (hb : b < 256) : ∀ c ∈ percentByte b, outOK c = true := by
  intro c hc
  simp only [percentByte, List.mem_cons, List.mem_singleton, List.not_mem_nil, or_false] at hc
  rcases hc with rfl | rfl | rfl
  · decide
  · exact outOK_hexUpper (by omega)
  · exact outOK_hexUpper (by omega)

theorem quoteChar_chars (ch : Char) : ∀ c ∈ quoteChar ch, outOK c = true := by
  intro c hc
  unfold quoteChar at hc
  split at hc
  · next hsafe =>
    simp only [List.mem_singleton] at hc
    subst hc
    simp only [outOK, Bool.or_eq_true] at hsafe ⊢
    tauto
  · simp only [List.mem_flatten, List.mem_map] at hc
    obtain ⟨l, ⟨b, _, rfl⟩, hcl⟩ := hc
    exact percentByte_chars (by have := UInt8.toNat_lt b; omega) c hcl

theorem percentEncode_chars (s : String) : ∀ c ∈ (percentEncode s).toList, outOK c = true := by
  intro c hc
  have hc : c ∈ (s.toList.map quoteChar).flatten := hc
  simp only [List.mem_flatten, List.mem_map] at hc
  obtain ⟨l, ⟨ch, _, rfl⟩, hcl⟩ := hc
  exact quoteChar_chars ch c hcl

theorem natDigitsRevF_lt : ∀ (fuel n : Nat), ∀ d ∈ natDigitsRevF fuel n, d < 10
  | 0, n => by simp [natDigitsRevF]
  | fuel + 1, n => by
    intro d hd
    simp only [natDigitsRevF] at hd
    split at hd
    · next h => simp only [List.mem_singleton] at hd; omega
    · rcases List.mem_cons.mp hd with rfl | h
      · omega
      · exact natDigitsRevF_lt fuel (n / 10) d h

theorem pyNatChars_shape (n : Nat) :
    ∀ c ∈ pyNatChars n, ∃ d, d < 10 ∧ c = Char.ofNat (48 + d) := by
  intro c hc
  simp only [pyNatChars, List.mem_map, List.mem_reverse] at hc
  obtain ⟨d, hd, rfl⟩ := hc
  exact ⟨d, natDigitsRevF_lt _ _ d hd, rfl⟩

theorem pyIntStr_shape (n : Int) :
    ∀ c ∈ (pyIntStr n).toList, c = '-' ∨ ∃ d, d < 10 ∧ c = Char.ofNat (48 + d) := by
  intro c hc
  unfold pyIntStr at hc
  split at hc
  · rw [strAppend_mk] at hc
    rcases List.mem_append.mp hc with h | h
    · left
      simpa using h
    · exact Or.inr (pyNatChars_shape _ c h)
  · exact Or.inr (pyNatChars_shape _ c hc)

theorem pyIntStr_chars (n : Int) : ∀ c ∈ (pyIntStr n).toList, outOK c = true := by
  intro c hc
  rcases pyIntStr_shape n c hc with rfl | ⟨d, hd, rfl⟩
  · decide
  · interval_cases d <;> decide

theorem pyBoolStr_chars (b : Bool) : ∀ c ∈ (pyBoolStr b).toList, outOK c = true := by
  cases b <;> decide

theorem convertParam_chars (v : PyVal) : ∀ c ∈ (convertParam v).toList, outOK c = true := by
  cases v with
  | str s => exact percentEncode_chars s
  | int n => exact pyIntStr_chars n
  | bool b => exact pyBoolStr_chars b

theorem formatScanM_lit (m : List (String × PyVal)) (cs : List Char)
    (hcs : cs.all noBraceChar = true) (t : List Char) :
    formatScanM m none (cs ++ t) = (formatScanM m none t).map (fun u => cs ++ u) := by
  induction cs with
  | nil =>
    simp only [List.nil_append]
    cases formatScanM m none t <;> rfl
  | cons c cs ih =>
    simp only [List.all_cons, Bool.and_eq_true] at hcs
    obtain ⟨hc, hcs⟩ := hcs
    simp only [noBraceChar, Bool.and_eq_true, bne_iff_ne, ne_eq] at hc
    simp only [List.cons_append]
    rw [formatScanM.eq_def]
    dsimp only
    rw [if_neg hc.1, if_neg hc.2, ih hcs]
    cases formatScanM m none t <;> rfl

theorem formatScanM_name (m : List (String × PyVal)) (nc : List Char)
    (hnc : nc.all (fun c => !badNameChars.contains c) = true) (t : List Char) :
    ∀ acc, formatScanM m (some acc) (nc ++ '}' :: t)
      = match lookupStr m (String.mk (acc ++ nc)) with
        | none => Except.error PyErr.keyError
        | some v => (formatScanM m none t).map (fun u => (convertParam v).toList ++ u) := by
  induction nc with
  | nil =>
    intro acc
    simp only [List.nil_append, List.append_nil]
    rw [formatScanM.eq_def]
    dsimp only
    rw [if_pos rfl]
  | cons c nc ih =>
    intro acc
    simp only [List.all_cons, Bool.and_eq_true] at hnc
    obtain ⟨hc, hnc⟩ := hnc
    have hmem : c ∉ badNameChars := by simpa using hc
    have hc1 : ¬ c = '}' := fun h => hmem (by rw [h]; decide)
    have hc2 : ¬ c = '{' := fun h => hmem (by rw [h]; decide)
    simp only [List.cons_append]
    rw [formatScanM.eq_def]
    dsimp only
    rw [if_neg hc1, if_neg hc2, ih hnc (acc ++ [c])]
    simp [List.append_assoc]

theorem formatScanM_hole (m : List (String × PyVal)) (n : String) (v : PyVal)
    (hn1 : n.toList ≠ [])
    (hn2 : n.toList.all (fun c => !badNameChars.contains c) = true)
    (hv : lookupStr m n = some v) (t : List Char) :
    formatScanM m none ('{' :: (n.toList ++ '}' :: t))
      = (formatScanM m none t).map (fun u => (convertParam v).toList ++ u) := by
  obtain ⟨c0, nc, hsplit⟩ : ∃ c0 nc, n.toList = c0 :: nc := by
    cases hl : n.toList with
    | nil => exact absurd hl hn1
    | cons a b => exact ⟨a, b, rfl⟩
  rw [hsplit] at hn2 ⊢
  simp only [List.all_cons, Bool.and_eq_true] at hn2
  obtain ⟨hc0, hnc⟩ := hn2
  have hmem : c0 ∉ badNameChars := by simpa using hc0
  have hc2 : ¬ c0 = '{' := fun h => hmem (by rw [h]; decide)
  rw [formatScanM.eq_def]
  dsimp only
  rw [if_pos rfl]
  dsimp only [List.cons_append]
  rw [if_neg hc2]
  have step := formatScanM_name m (c0 :: nc) (by simp only [List.all_cons, Bool.and_eq_true]; exact ⟨hc0, hnc⟩) t []
  simp only [List.nil_append, List.cons_append] at step
  rw [step]
  have hmk : String.mk (c0 :: nc) = n := by rw [← hsplit]; exact mk_toList n
  rw [hmk, hv]

theorem formatScanM_pieces (m : List (String × PyVal)) (ps : List TPiece)
    (h : piecesOk m ps = true) :
    formatScanM m none (textCharsOf ps) = Except.ok (filledCharsOf m ps) := by
  induction ps with
  | nil => rfl
  | cons p ps ih =>
    simp only [piecesOk, List.all_cons, Bool.and_eq_true] at h
    obtain ⟨hp, hps⟩ := h
    have ih := ih hps
    cases p with
    | lit s =>
      simp only [textCharsOf, TPiece.textChars, filledCharsOf, TPiece.filledChars]
      rw [formatScanM_lit m s.toList hp, ih]
      rfl
    | hole n =>
      simp only [TPiece.ok, Bool.and_eq_true] at hp
      obtain ⟨⟨hne, hgood⟩, hsome⟩ := hp
      obtain ⟨v, hv⟩ := Option.isSome_iff_exists.mp hsome
      have hnil : n.toList ≠ [] := by
        intro hl
        have : n = "" := by rw [← mk_toList n, hl]
        rw [this] at hne
        exact absurd hne (by decide)
      simp only [textCharsOf, TPiece.textChars, filledCharsOf, TPiece.filledChars, hv]
      have hsh : ('{' :: (n.toList ++ ['}'])) ++ textCharsOf ps
          = '{' :: (n.toList ++ '}' :: textCharsOf ps) := by
        simp
      rw [hsh, formatScanM_hole m n v hnil hgood hv, ih]
      rfl

theorem filledCharsOf_noBrace (m : List (String × PyVal)) (ps : List TPiece)
    (h : piecesOk m ps = true) :
    ∀ c ∈ filledCharsOf m ps, c ≠ '{' ∧ c ≠ '}' := by
  induction ps with
  | nil => simp [filledCharsOf]
  | cons p ps ih =>
    simp only [piecesOk, List.all_cons, Bool.and_eq_true] at h
    obtain ⟨hp, hps⟩ := h
    intro c hc
    simp only [filledCharsOf] at hc
    rcases List.mem_append.mp hc with hc | hc
    · cases p with
      | lit s =>
        simp only [TPiece.filledChars] at hc
        have := List.all_eq_true.mp hp c hc
        simpa [noBraceChar, bne_iff_ne] using this
      | hole n =>
        simp only [TPiece.filledChars] at hc
        cases hl : lookupStr m n with
        | none => rw [hl] at hc; cases hc
        | some v =>
          rw [hl] at hc
          exact outOK_noBrace (convertParam_chars v c hc)
    · exact ih hps c hc

theorem piecesOk_nil_params (ps : List TPiece) (h : piecesOk [] ps = true) :
    filledCharsOf [] ps = textCharsOf ps := by
  induction ps with
  | nil => rfl
  | cons p ps ih =>
    simp only [piecesOk, List.all_cons, Bool.and_eq_true] at h
    obtain ⟨hp, hps⟩ := h
    cases p with
    | lit s => simp [textCharsOf, filledCharsOf, TPiece.textChars, TPiece.filledChars, ih hps]
    | hole n =>
      exfalso
      simp only [TPiece.ok, Bool.and_eq_true] at hp
      exact absurd hp.2 (by simp [lookupStr])

theorem base_noBrace : ∀ c ∈ Route.BASE.toList, c ≠ '{' ∧ c ≠ '}' := by decide

/-! ## The claims -/

/-- C1: for every method, path template and parameter mapping whose keys
exactly cover the placeholders of the template, resolving the Route
produces the fixed origin concatenated with the template in which each
placeholder is replaced by its converted parameter value (percent-encoded
when textual, canonical literal text otherwise), and the final URL
contains no literal brace characters. -/
theorem c1_route_resolution (method : String) (ps : List TPiece) (params : List (String × PyVal))
    (hok : piecesOk params ps = true) (hcov : coversAll params ps = true) :
    Route.make method (String.mk (textCharsOf ps)) params
      = Except.ok { method := method, path := String.mk (textCharsOf ps),
                    url := String.mk (Route.BASE.toList ++ filledCharsOf params ps) }
    ∧ ∀ c ∈ Route.BASE.toList ++ filledCharsOf params ps, c ≠ '{' ∧ c ≠ '}' := by
  constructor
  · unfold Route.make
    cases hemp : params.isEmpty
    · simp only [Bool.false_eq_true, if_false]
      unfold formatMap
      rw [strAppend_mk]
      have hbase : Route.BASE.data ++ textCharsOf ps = textCharsOf (TPiece.lit Route.BASE :: ps) := rfl
      have hform : formatScanM params none (Route.BASE.data ++ textCharsOf ps)
          = Except.ok (Route.BASE.toList ++ filledCharsOf params ps) := by
        rw [hbase]
        have hok2 : piecesOk params (TPiece.lit Route.BASE :: ps) = true := by
          simp only [piecesOk, List.all_cons, Bool.and_eq_true]
          exact ⟨(by decide : Route.BASE.toList.all noBraceChar = true), hok⟩
        exact formatScanM_pieces params _ hok2
      rw [show ((String.mk (Route.BASE.data ++ textCharsOf ps)).toList)
            = Route.BASE.data ++ textCharsOf ps from rfl] at *
      rw [hform]
      rfl
    · have hnil : params = [] := List.isEmpty_iff.mp hemp
      subst hnil
      simp only [if_true]
      rw [strAppend_mk, piecesOk_nil_params ps hok]
      rfl
  · intro c hc
    rcases List.mem_append.mp hc with h | h
    · exact base_noBrace c h
    · exact filledCharsOf_noBrace params ps hok c h

/-- Witness for C1: scenario 1 of the spec, resolving GET /v2/gifs/ with
the id placeholder bound to abc123. -/
theorem c1_route_resolution_witness :
    Route.make "GET" "/v2/gifs/{id}" [("id", PyVal.str "abc123")]
      = Except.ok { method := "GET", path := "/v2/gifs/{id}",
                    url := "https://api.redgifs.com/v2/gifs/abc123" } := by
  have h := (c1_route_resolution "GET" [TPiece.lit "/v2/gifs/", TPiece.hole "id"]
    [("id", PyVal.str "abc123")] (by decide) (by decide)).1
  exact h

/-- C4 as stated is false on the code: the claim requires every reserved
character of a textual parameter value to be escaped before substitution,
but `quote` is called with its default safe set, which leaves the
reserved character `/` verbatim; witnessed by the value a/b. -/
theorem c4_counterexample :
    ¬ (∀ (s : String) (c : Char), c ∈ rfc3986Reserved → c ∉ (convertParam (PyVal.str s)).toList) := by
  intro h
  exact h "a/b" '/' (by decide) (by decide)

/-- C4 amended: textual parameter values are percent-encoded by `quote`
with its default safe set, so every reserved character other than the
slash is escaped away (it cannot occur literally in the encoded text),
while int and bool values substitute their canonical text, which contains
no reserved character and no percent escape at all. -/
theorem c4_reserved_encoding :
    (∀ s : String, convertParam (PyVal.str s) = percentEncode s) ∧
    (∀ (s : String) (c : Char), c ∈ (convertParam (PyVal.str s)).toList → c ∉ reservedNoSlash) ∧
    (∀ n : Int, convertParam (PyVal.int n) = pyIntStr n ∧
      ∀ c ∈ (pyIntStr n).toList, c ∉ rfc3986Reserved ∧ c ≠ '%') ∧
    (∀ b : Bool, convertParam (PyVal.bool b) = pyBoolStr b ∧
      ∀ c ∈ (pyBoolStr b).toList, c ∉ rfc3986Reserved ∧ c ≠ '%') := by
  refine ⟨fun _ => rfl, ?_, ?_, ?_⟩
  · intro s c hc hmem
    exact outOK_not_reserved (percentEncode_chars s c hc) hmem
  · intro n
    refine ⟨rfl, ?_⟩
    intro c hc
    rcases pyIntStr_shape n c hc with rfl | ⟨d, hd, rfl⟩
    · exact ⟨by decide, by decide⟩
    · interval_cases d <;> exact ⟨by decide, by decide⟩
  · intro b
    refine ⟨rfl, ?_⟩
    cases b <;> decide

/-- Witness for C4 amended: a character actually occurring in an encoded
value is not a non-slash reserved character, and an int value converts to
its canonical decimal text. -/
theorem c4_reserved_encoding_witness :
    ('x' ∉ reservedNoSlash) ∧ convertParam (PyVal.int (-7)) = pyIntStr (-7) :=
  ⟨c4_reserved_encoding.2.1 "x?y" 'x' (by decide), (c4_reserved_encoding.2.2.1 (-7)).1⟩

/-- C9: Route resolution is pure: resolving with identical method, path
template and parameters yields identical final URLs; the embedding has no
state besides the three inputs. -/
theorem c9_resolution_pure (m1 p1 : String) (ps1 : List (String × PyVal))
    (m2 p2 : String) (ps2 : List (String × PyVal))
    (hm : m1 = m2) (hp : p1 = p2) (hps : ps1 = ps2) :
    Route.make m1 p1 ps1 = Route.make m2 p2 ps2 := by
  subst hm
  subst hp
  subst hps
  rfl

/-- Witness for C9 at a concrete route. -/
theorem c9_resolution_pure_witness :
    Route.make "GET" "/v1/tags" [] = Route.make "GET" "/v1/tags" [] :=
  c9_resolution_pure "GET" "/v1/tags" [] "GET" "/v1/tags" [] rfl rfl rfl

/-- C3: for every request executed by either transport, status 200 makes
`request` return the parsed body unchanged; any other status makes it
raise the typed HTTP error carrying the raw response and the parsed body;
and it raises exactly when the status differs from 200. -/
theorem c3_status_gating (st : HTTPState) (ast : AsyncState) (r : Route) (resp : PyResponse) :
    (resp.status = 200 → (HTTP.request st r resp).2 = Except.ok resp.body) ∧
    (resp.status ≠ 200 →
      (HTTP.request st r resp).2 = Except.error (PyErr.httpException resp resp.body)) ∧
    ((∃ e, (HTTP.request st r resp).2 = Except.error e) ↔ resp.status ≠ 200) ∧
    (resp.status = 200 → (AsyncHttp.request ast r resp).2 = Except.ok resp.body) ∧
    (resp.status ≠ 200 →
      (AsyncHttp.request ast r resp).2 = Except.error (PyErr.httpException resp resp.body)) ∧
    ((∃ e, (AsyncHttp.request ast r resp).2 = Except.error e) ↔ resp.status ≠ 200) := by
  unfold HTTP.request AsyncHttp.request
  by_cases h : resp.status = 200 <;> simp [h]

/-- Witness for C3: a 200 response is returned unchanged and a 404
response raises the typed error carrying response and body. -/
theorem c3_status_gating_witness :
    (HTTP.request demoState demoRoute { status := 200, body := JVal.null }).2
      = Except.ok JVal.null ∧
    (AsyncHttp.request demoAsyncState demoRoute { status := 404, body := JVal.null }).2
      = Except.error (PyErr.httpException { status := 404, body := JVal.null } JVal.null) :=
  ⟨(c3_status_gating demoState demoAsyncState demoRoute { status := 200, body := JVal.null }).1 rfl,
   (c3_status_gating demoState demoAsyncState demoRoute
      { status := 404, body := JVal.null }).2.2.2.2.1 (by decide)⟩

/-- C5: for every URL whose host contains both markers, a pattern match
takes the direct branch with no structured request and returns the byte
count written, and a pattern failure raises the invalid-URL error, on
both transports. -/
theorem c5_direct_asset (re : ThumbsPattern) (w : World) (st : HTTPState) (ast : AsyncState)
    (url : String) (fp : DownloadTarget)
    (h1 : hasSubStr "thumbs" (hostStrOf url) = true)
    (h2 : hasSubStr "redgifs" (hostStrOf url) = true) :
    (re url = true →
      HTTP.download w re st url fp
        = Except.ok { apiCalls := [], rawFetches := [url],
                      events := (dl fp (w.rawBytes url)).events,
                      ret := ((w.rawBytes url).length : Int) }
      ∧ AsyncHttp.download w re ast url fp
        = Except.ok { apiCalls := [], rawFetches := [url],
                      events := (dl fp (w.rawBytes url)).events,
                      ret := ((w.rawBytes url).length : Int) }) ∧
    (re url = false →
      HTTP.download w re st url fp
        = Except.error (PyErr.typeError ("\"" ++ url ++ "\" is an invalid RedGifs URL."))
      ∧ AsyncHttp.download w re ast url fp
        = Except.error (PyErr.typeError ("\"" ++ url ++ "\" is an invalid RedGifs URL."))) := by
  have hret : (dl fp (w.rawBytes url)).ret = ((w.rawBytes url).length : Int) := by
    cases fp <;> rfl
  constructor
  · intro hre
    constructor <;> simp [HTTP.download, AsyncHttp.download, h1, h2, hre, hret]
  · intro hre
    constructor <;> simp [HTTP.download, AsyncHttp.download, h1, h2, hre]

/-- Witness for C5 at the scenario-2 URL with a concrete asset grammar
that it matches. -/
theorem c5_direct_asset_witness :
    HTTP.download demoWorld demoPattern demoState
        "https://thumbs44.redgifs.com/SomeAsset-mobile.mp4" (DownloadTarget.sink 0)
      = Except.ok { apiCalls := [],
                    rawFetches := ["https://thumbs44.redgifs.com/SomeAsset-mobile.mp4"],
                    events := (dl (DownloadTarget.sink 0)
                      (demoWorld.rawBytes "https://thumbs44.redgifs.com/SomeAsset-mobile.mp4")).events,
                    ret := 3 } :=
  ((c5_direct_asset demoPattern demoWorld demoState demoAsyncState
      "https://thumbs44.redgifs.com/SomeAsset-mobile.mp4" (DownloadTarget.sink 0)
      (by decide) (by decide)).1 (by decide)).1

/-- C6 amended: for every URL whose host does not contain both markers
and whose path does not contain `watch` even as a substring (the test
the code performs, broader than the watch-segment grammar of the spec),
`download` returns the sentinel 1, raising nothing, issuing no request
or fetch and writing nothing, on both transports. -/
theorem c6_unrecognized (re : ThumbsPattern) (w : World) (st : HTTPState) (ast : AsyncState)
    (url : String) (fp : DownloadTarget)
    (h1 : (hasSubStr "thumbs" (hostStrOf url) && hasSubStr "redgifs" (hostStrOf url)) = false)
    (h2 : hasSubStr "watch" (pathStrOf url) = false) :
    HTTP.download w re st url fp
      = Except.ok { apiCalls := [], rawFetches := [], events := [], ret := 1 }
    ∧ AsyncHttp.download w re ast url fp
      = Except.ok { apiCalls := [], rawFetches := [], events := [], ret := 1 } := by
  constructor <;> simp [HTTP.download, AsyncHttp.download, h1, h2]

/-- Witness for C6 at the unrelated URL of scenario 4. -/
theorem c6_unrecognized_witness :
    HTTP.download demoWorld demoPattern demoState
        "https://example.com/unrelated" (DownloadTarget.sink 0)
      = Except.ok { apiCalls := [], rawFetches := [], events := [], ret := 1 } :=
  (c6_unrecognized demoPattern demoWorld demoState demoAsyncState
      "https://example.com/unrelated" (DownloadTarget.sink 0) (by decide) (by decide)).1

/-- C6 fails as stated: the URL with path /watchtower matches neither
grammar of the claim (its host lacks both markers, so it is not a
direct-asset URL under any asset pattern, and its path has no `watch`
path segment), yet the code, testing `watch` as a substring, takes the
watch branch: the sync transport issues GET /v2/gifs/ower (the strip of
the path) and writes the fetched bytes returning their count rather than
the sentinel 1 with no fetch, and the async transport raises TypeError
rather than returning at all. -/
theorem c6_counterexample :
    hasWatchSegment "https://example.com/watchtower" = false ∧
    (hasSubStr "thumbs" (hostStrOf "https://example.com/watchtower")
      && hasSubStr "redgifs" (hostStrOf "https://example.com/watchtower")) = false ∧
    HTTP.download demoWorld demoPattern demoState
        "https://example.com/watchtower" (DownloadTarget.sink 0)
      = Except.ok { apiCalls := [("GET", "https://api.redgifs.com/v2/gifs/ower")],
                    rawFetches := ["https://thumbs44.redgifs.com/Demo-mobile.mp4"],
                    events := [FileEvent.writeSink 0 [104, 105, 33]], ret := 3 } ∧
    AsyncHttp.download demoWorld demoPattern demoAsyncState
        "https://example.com/watchtower" (DownloadTarget.sink 0)
      = Except.error (PyErr.typeError "coroutine object is not subscriptable") := by
  refine ⟨by decide, by decide, ?_, ?_⟩ <;> rfl

/-- C7: supplying a session object of the wrong underlying type makes
construction fail immediately with the configuration error (the
constructors perform no network activity: they consult no network
oracle); omitting it makes the transport create and own a fresh session,
on both transports. -/
theorem c7_session_check (s : PySessionTy) (proxy : Option String) (pa : Option ProxyAuth) :
    (s ≠ PySessionTy.requestsSession →
      HTTP.init (some s) proxy pa
        = Except.error (PyErr.runtimeError "session is not of type requests.Session")) ∧
    HTTP.init none proxy pa = Except.ok (HTTP.initState PySessionTy.requestsSession true proxy pa) ∧
    (HTTP.initState PySessionTy.requestsSession true proxy pa).sessionCreated = true ∧
    (s ≠ PySessionTy.aiohttpClientSession →
      AsyncHttp.init (some s) proxy pa
        = Except.error (PyErr.runtimeError "session is not of type aiohttp.ClientSession")) ∧
    AsyncHttp.init none proxy pa
      = Except.ok (AsyncHttp.initState PySessionTy.aiohttpClientSession true proxy pa) ∧
    (AsyncHttp.initState PySessionTy.aiohttpClientSession true proxy pa).sessionCreated = true := by
  refine ⟨?_, ?_, rfl, ?_, ?_, rfl⟩
  · intro h
    simp [HTTP.init, h]
  · rfl
  · intro h
    simp [AsyncHttp.init, h]
  · rfl

/-- Witness for C7: an aiohttp session refused by the sync constructor
and a requests session refused by the async constructor. -/
theorem c7_session_check_witness :
    HTTP.init (some PySessionTy.aiohttpClientSession) none none
      = Except.error (PyErr.runtimeError "session is not of type requests.Session") ∧
    AsyncHttp.init (some PySessionTy.requestsSession) none none
      = Except.error (PyErr.runtimeError "session is not of type aiohttp.ClientSession") :=
  ⟨(c7_session_check PySessionTy.aiohttpClientSession none none).1 (by decide),
   (c7_session_check PySessionTy.requestsSession none none).2.2.2.1 (by decide)⟩

/-- C8: a filesystem-path target is opened fresh in truncating binary
write mode, written and closed before the inner helper returns; a
caller-supplied sink is written without ever being opened or closed. -/
theorem c8_target_handling (p : String) (i : Nat) (data : List Nat) :
    dl (DownloadTarget.path p) data
      = { events := [FileEvent.openTrunc p, FileEvent.writeFile p data, FileEvent.closeFile p],
          ret := (data.length : Int) }
    ∧ dl (DownloadTarget.sink i) data
      = { events := [FileEvent.writeSink i data], ret := (data.length : Int) }
    ∧ (∀ e ∈ (dl (DownloadTarget.sink i) data).events,
        ∀ q, e ≠ FileEvent.closeFile q ∧ e ≠ FileEvent.openTrunc q) := by
  refine ⟨rfl, rfl, ?_⟩
  intro e he q
  simp only [dl, List.mem_singleton] at he
  subst he
  exact ⟨by simp, by simp⟩

/-- Witness for C8 at a concrete path, sink and byte list. -/
theorem c8_target_handling_witness :
    dl (DownloadTarget.path "out.mp4") [7, 8]
      = { events := [FileEvent.openTrunc "out.mp4", FileEvent.writeFile "out.mp4" [7, 8],
                     FileEvent.closeFile "out.mp4"], ret := 2 }
    ∧ dl (DownloadTarget.sink 0) [7, 8]
      = { events := [FileEvent.writeSink 0 [7, 8]], ret := 2 } :=
  ⟨(c8_target_handling "out.mp4" 0 [7, 8]).1, (c8_target_handling "out.mp4" 0 [7, 8]).2.1⟩

/-- C10: proxy credentials supplied without a configured proxy origin are
silently discarded by both constructors, and no request issued afterwards
carries any authentication or proxy derived from them. -/
theorem c10_proxy_auth_discarded :
    (∀ (sess : Option PySessionTy) (proxy : Option String) (a : ProxyAuth) (st : HTTPState),
      truthyOptStr proxy = false →
      HTTP.init sess proxy (some a) = Except.ok st →
      st._proxy = none ∧ st._proxy_auth = none ∧
        ∀ (r : Route) (resp : PyResponse),
          (HTTP.request st r resp).1.proxies = none ∧ (HTTP.request st r resp).1.auth = none) ∧
    (∀ (sess : Option PySessionTy) (proxy : Option String) (a : ProxyAuth) (ast : AsyncState),
      truthyOptStr proxy = false →
      AsyncHttp.init sess proxy (some a) = Except.ok ast →
      ast._proxy_auth = none ∧
        ∀ (r : Route) (resp : PyResponse),
          (AsyncHttp.request ast r resp).1.proxy = none
          ∧ (AsyncHttp.request ast r resp).1.proxy_auth = none) := by
  constructor
  · intro sess proxy a st htr hok
    unfold HTTP.init at hok
    split at hok
    · cases hok
    · injection hok with h
      subst h
      refine ⟨?_, ?_, ?_⟩ <;> simp [HTTP.initState, HTTP.request, htr]
  · intro sess proxy a ast htr hok
    unfold AsyncHttp.init at hok
    split at hok
    · cases hok
    · injection hok with h
      subst h
      refine ⟨?_, ?_⟩ <;> simp [AsyncHttp.initState, AsyncHttp.request, htr]

/-- Witness for C10: credentials with no proxy at all leave both derived
authentication fields unset. -/
theorem c10_proxy_auth_discarded_witness :
    (HTTP.initState PySessionTy.requestsSession true none
        (some { username := "u", password := "p" }))._proxy_auth = none ∧
    (AsyncHttp.initState PySessionTy.aiohttpClientSession true none
        (some { username := "u", password := "p" }))._proxy_auth = none :=
  ⟨(c10_proxy_auth_discarded.1 none none { username := "u", password := "p" } _ rfl rfl).2.1,
   (c10_proxy_auth_discarded.2 none none { username := "u", password := "p" } _ rfl rfl).1⟩

/-- C2 (evidence of the code bug): on the sync transport, the watch URL
with trailing segment cat is mangled by the character-set semantics of
`str.strip`, so the metadata lookup goes to /v2/gifs/ with an empty id
instead of /v2/gifs/cat, while the spec scenario URL with trailing
segment somename happens to survive the strip; and on the async
transport every watch URL fails with TypeError because the inherited
`get_gif` hands back an un-awaited coroutine that is then subscripted,
so no lookup is ever issued. -/
theorem c2_watch_bug_eval :
    pyStrip "/watch/cat" "/watch/" = "" ∧
    HTTP.download demoWorld demoPattern demoState
        "https://www.redgifs.com/watch/cat" (DownloadTarget.sink 0)
      = Except.ok { apiCalls := [("GET", "https://api.redgifs.com/v2/gifs/")],
                    rawFetches := ["https://thumbs44.redgifs.com/Demo-mobile.mp4"],
                    events := [FileEvent.writeSink 0 [104, 105, 33]], ret := 3 } ∧
    HTTP.download demoWorld demoPattern demoState
        "https://www.redgifs.com/watch/somename" (DownloadTarget.sink 0)
      = Except.ok { apiCalls := [("GET", "https://api.redgifs.com/v2/gifs/somename")],
                    rawFetches := ["https://thumbs44.redgifs.com/Demo-mobile.mp4"],
                    events := [FileEvent.writeSink 0 [104, 105, 33]], ret := 3 } ∧
    AsyncHttp.download demoWorld demoPattern demoAsyncState
        "https://www.redgifs.com/watch/somename" (DownloadTarget.sink 0)
      = Except.error (PyErr.typeError "coroutine object is not subscriptable") := by
  refine ⟨by decide, ?_, ?_, ?_⟩ <;> rfl
